import Mathlib

/-!
# Verification of the `simple-register-vm` interpreter core

A shallow embedding of `src/main.rs`: a register-based virtual machine with
ten signed 64-bit registers, a program counter, a comparison flag and an
instruction store.  Machine integers are modelled as `Int` together with
explicit two's-complement wrapping (`wrap64`, `wrap8`), matching the
release-mode semantics of the Rust arithmetic the interpreter uses.  The one
arithmetic trap Rust performs in every build profile — division overflow on
`i64::MIN / -1` — is modelled explicitly: `execute` returns an `Option`,
and `none` stands for that process-aborting panic.  Stateful methods of
`RegisterVM` become state-passing functions; `Result` becomes `Except`.
-/

/-- Two's-complement wrap of an integer into the signed 64-bit range
`[-2^63, 2^63)`, the release-mode behaviour of Rust `i64` arithmetic. -/
def wrap64 (x : Int) : Int := (x + 2 ^ 63) % 2 ^ 64 - 2 ^ 63

/-- Two's-complement wrap of an integer into the signed 8-bit range
`[-2^7, 2^7)`; also models the truncating Rust cast `as i8`. -/
def wrap8 (x : Int) : Int := (x + 2 ^ 7) % 2 ^ 8 - 2 ^ 7

/-- `enum VMError` of `src/main.rs`. -/
inductive VMError where
  | InvalidRegister
  | DivisionByZero
  | InvalidProgramCounter
  deriving Repr, DecidableEq

/-- `enum Operand`: a register index or an immediate `i64`. -/
inductive Operand where
  | Register : Nat → Operand
  | Immediate : Int → Operand
  deriving Repr, DecidableEq

/-- `enum Instruction` of `src/main.rs`. -/
inductive Instruction where
  | Mov : Nat → Operand → Instruction
  | Add : Nat → Operand → Instruction
  | Sub : Nat → Operand → Instruction
  | Mul : Nat → Operand → Instruction
  | Div : Nat → Operand → Instruction
  | Cmp : Nat → Operand → Instruction
  | Jmp : Nat → Instruction
  | Je : Nat → Instruction
  | Jne : Nat → Instruction
  | Jg : Nat → Instruction
  | Jl : Nat → Instruction
  | Halt : Instruction
  deriving Repr, DecidableEq

/-- `struct RegisterVM`: ten `i64` registers, program counter, `i8`
comparison flag, and the instruction store (`memory`). -/
structure RegisterVM where
  registers : List Int
  pc : Nat
  cmp_flag : Int
  memory : List Instruction
  deriving Repr, DecidableEq

namespace RegisterVM

/-- `RegisterVM::new`: zeroed registers, zero PC, zero flag, empty store. -/
def new : RegisterVM :=
  { registers := List.replicate 10 0
    pc := 0
    cmp_flag := 0
    memory := [] }

/-- `RegisterVM::load_program`: replace the instruction store, reset PC. -/
def load_program (vm : RegisterVM) (program : List Instruction) : RegisterVM :=
  { vm with memory := program, pc := 0 }

/-- `RegisterVM::get_operand_value`: resolve an operand against the current
register file, failing on an out-of-range register index. -/
def get_operand_value (vm : RegisterVM) (operand : Operand) : Except VMError Int :=
  match operand with
  | .Register reg =>
      if reg < vm.registers.length then .ok (vm.registers.getD reg 0)
      else .error .InvalidRegister
  | .Immediate value => .ok value

/-- `RegisterVM::fetch`: read the instruction at the current PC and advance
the PC by one; `none` when the PC is at or past the end of the store. -/
def fetch (vm : RegisterVM) : Option (Instruction × RegisterVM) :=
  match vm.memory[vm.pc]? with
  | some instruction => some (instruction, { vm with pc := vm.pc + 1 })
  | none => none

/-- `RegisterVM::execute`: one instruction.  `some` carries the
continue/halt flag (`Ok(true)`/`Ok(false)`) or an error, paired with the VM
state as left by the handler (Rust mutates `self` in place; the early
`return Err` paths leave the state untouched, which the state-passing
translation makes explicit).  `none` models the Rust panic on division
overflow: `i64::MIN / -1` traps in every build profile, so the Div arm
checks the divisor and dividend exactly as the Rust runtime does before
writing the (then always representable) truncating quotient.  ADD, SUB and
MUL wrap as release-mode Rust `i64` arithmetic does; the `Cmp` arm
transcribes `(val1 > val2) as i8 - (val1 - val2) as i8` literally, with the
`i64` subtraction, the `as i8` cast and the `i8` subtraction each
wrapping. -/
def execute (vm : RegisterVM) (instruction : Instruction) :
    Option (Except VMError Bool × RegisterVM) :=
  match instruction with
  | .Mov dest src =>
      if dest ≥ vm.registers.length then some (.error .InvalidRegister, vm)
      else
        match vm.get_operand_value src with
        | .error e => some (.error e, vm)
        | .ok v => some (.ok true, { vm with registers := vm.registers.set dest v })
  | .Add dest src =>
      if dest ≥ vm.registers.length then some (.error .InvalidRegister, vm)
      else
        match vm.get_operand_value src with
        | .error e => some (.error e, vm)
        | .ok v =>
            some (.ok true, { vm with
              registers := vm.registers.set dest (wrap64 (vm.registers.getD dest 0 + v)) })
  | .Sub dest src =>
      if dest ≥ vm.registers.length then some (.error .InvalidRegister, vm)
      else
        match vm.get_operand_value src with
        | .error e => some (.error e, vm)
        | .ok v =>
            some (.ok true, { vm with
              registers := vm.registers.set dest (wrap64 (vm.registers.getD dest 0 - v)) })
  | .Mul dest src =>
      if dest ≥ vm.registers.length then some (.error .InvalidRegister, vm)
      else
        match vm.get_operand_value src with
        | .error e => some (.error e, vm)
        | .ok v =>
            some (.ok true, { vm with
              registers := vm.registers.set dest (wrap64 (vm.registers.getD dest 0 * v)) })
  | .Div dest src =>
      if dest ≥ vm.registers.length then some (.error .InvalidRegister, vm)
      else
        match vm.get_operand_value src with
        | .error e => some (.error e, vm)
        | .ok divisor =>
            if divisor = 0 then some (.error .DivisionByZero, vm)
            else if vm.registers.getD dest 0 = -2 ^ 63 ∧ divisor = -1 then
              none
            else
              some (.ok true, { vm with
                registers := vm.registers.set dest
                  (Int.tdiv (vm.registers.getD dest 0) divisor) })
  | .Cmp reg1 src =>
      if reg1 ≥ vm.registers.length then some (.error .InvalidRegister, vm)
      else
        match vm.get_operand_value src with
        | .error e => some (.error e, vm)
        | .ok val2 =>
            some (.ok true, { vm with
              cmp_flag :=
                wrap8 ((if vm.registers.getD reg1 0 > val2 then (1 : Int) else 0) -
                  wrap8 (wrap64 (vm.registers.getD reg1 0 - val2))) })
  | .Jmp addr =>
      if addr ≥ vm.memory.length then some (.error .InvalidProgramCounter, vm)
      else some (.ok true, { vm with pc := addr })
  | .Je addr =>
      if vm.cmp_flag = 0 then
        if addr ≥ vm.memory.length then some (.error .InvalidProgramCounter, vm)
        else some (.ok true, { vm with pc := addr })
      else some (.ok true, vm)
  | .Jne addr =>
      if vm.cmp_flag ≠ 0 then
        if addr ≥ vm.memory.length then some (.error .InvalidProgramCounter, vm)
        else some (.ok true, { vm with pc := addr })
      else some (.ok true, vm)
  | .Jg addr =>
      if vm.cmp_flag > 0 then
        if addr ≥ vm.memory.length then some (.error .InvalidProgramCounter, vm)
        else some (.ok true, { vm with pc := addr })
      else some (.ok true, vm)
  | .Jl addr =>
      if vm.cmp_flag < 0 then
        if addr ≥ vm.memory.length then some (.error .InvalidProgramCounter, vm)
        else some (.ok true, { vm with pc := addr })
      else some (.ok true, vm)
  | .Halt => some (.ok false, vm)

/-- `RegisterVM::run`, with explicit fuel standing for the unbounded Rust
loop: `none` means the loop produced no result — either the fuel ran out or
an instruction panicked (division overflow), in both of which cases the Rust
`run` never returns.  The final VM state (which Rust keeps in `self`) is
returned alongside the `Result`. -/
def run : Nat → RegisterVM → Option (Except VMError Int × RegisterVM)
  | 0, _ => none
  | fuel + 1, vm =>
      match vm.fetch with
      | some (instruction, vm1) =>
          match vm1.execute instruction with
          | some (.error e, vm2) => some (.error e, vm2)
          | some (.ok true, vm2) => run fuel vm2
          | some (.ok false, vm2) => some (.ok (vm2.registers.getD 0 0), vm2)
          | none => none
      | none => some (.ok (vm.registers.getD 0 0), vm)

end RegisterVM

/-- The nine-instruction factorial-of-5 program hard-coded in `main`. -/
def factorial_program : List Instruction :=
  [ .Mov 0 (.Immediate 5)
  , .Mov 1 (.Immediate 1)
  , .Cmp 0 (.Immediate 0)
  , .Je 7
  , .Mul 1 (.Register 0)
  , .Sub 0 (.Immediate 1)
  , .Jmp 2
  , .Mov 0 (.Register 1)
  , .Halt ]

/-- The VM state left behind by the division-by-zero sample program at the
moment of failure. -/
def divFailState : RegisterVM :=
  { registers := [10, 0, 0, 0, 0, 0, 0, 0, 0, 0]
    pc := 3
    cmp_flag := 0
    memory := [.Mov 0 (.Immediate 10), .Mov 1 (.Immediate 0), .Div 0 (.Register 1)] }

/-- A VM state with register 0 holding 1 and a nonzero comparison flag. -/
def c1State : RegisterVM :=
  { RegisterVM.new with registers := (List.replicate 10 0).set 0 1, cmp_flag := 5 }

/-- A VM state with register 0 holding the minimal signed 64-bit value. -/
def c3State : RegisterVM :=
  { RegisterVM.new with registers := (List.replicate 10 0).set 0 (-(2 ^ 63)), cmp_flag := 7 }

/-- A VM state with register 0 holding the minimal signed 64-bit value,
poised for the overflowing division by −1. -/
def c8State : RegisterVM :=
  { RegisterVM.new with registers := (List.replicate 10 0).set 0 (-(2 ^ 63)) }

/-- C1, refuted on the code: with registers[0] = 1 and operand Immediate 0
the difference registers[0] − val(b) = 1 is positive, yet the Cmp handler
(`(val1 > val2) as i8 - (val1 - val2) as i8`) writes comparison flag 0, so
the flag's sign does not equal the sign of registers[a] − val(b). -/
theorem C1_cmp_flag_sign_refuted :
    RegisterVM.execute c1State (.Cmp 0 (.Immediate 0)) =
      some (.ok true, { c1State with cmp_flag := 0 }) ∧
    c1State.registers.getD 0 0 - 0 > 0 :=
  ⟨rfl, by decide⟩

/-- C2, confirmed: the nine-instruction factorial sample, loaded into a
fresh VM, runs to the HALT at index 8 (final PC 9) and `run` returns 120. -/
theorem C2_factorial_returns_120 :
    RegisterVM.run 100 (RegisterVM.load_program RegisterVM.new factorial_program) =
      some (.ok 120,
        { registers := [120, 120, 0, 0, 0, 0, 0, 0, 0, 0]
          pc := 9
          cmp_flag := 0
          memory := factorial_program }) :=
  rfl

/-- C3, refuted on the code: with registers[0] = −2^63 (i64::MIN) and
operand Immediate 2^62 (a large positive value), the wrapped i64
subtraction yields 2^62, whose low byte is 0, so the Cmp handler writes
comparison flag 0 — not a negative value — even though registers[0] is far
below the operand.  (In a debug build the same expression can also panic on
i8 overflow.) -/
theorem C3_cmp_min_refuted :
    RegisterVM.execute c3State (.Cmp 0 (.Immediate (2 ^ 62))) =
      some (.ok true, { c3State with cmp_flag := 0 }) ∧
    c3State.registers.getD 0 0 < 2 ^ 62 :=
  ⟨rfl, by decide⟩

/-- C6, confirmed: `load_program` replaces the instruction store and resets
the PC to 0 while leaving the register file and the comparison flag
untouched, and loading the same program twice equals loading it once. -/
theorem C6_load_program_frame (vm : RegisterVM) (program : List Instruction) :
    (vm.load_program program).memory = program ∧
    (vm.load_program program).pc = 0 ∧
    (vm.load_program program).registers = vm.registers ∧
    (vm.load_program program).cmp_flag = vm.cmp_flag ∧
    (vm.load_program program).load_program program = vm.load_program program :=
  ⟨rfl, rfl, rfl, rfl, rfl⟩

/-- C4, confirmed: each conditional jump (JE on flag = 0, JNE on flag ≠ 0,
JG on flag > 0, JL on flag < 0) leaves the state unchanged when its
predicate is false (even for an out-of-range target), fails with
InvalidProgramCounter when the predicate holds and the target is at or past
the end of the instruction store, and sets the PC to the target when the
predicate holds and the target is in range. -/
theorem C4_conditional_jumps (vm : RegisterVM) (addr : Nat) :
    ((vm.cmp_flag ≠ 0 → vm.execute (.Je addr) = some (.ok true, vm)) ∧
     (vm.cmp_flag = 0 → vm.memory.length ≤ addr →
        vm.execute (.Je addr) = some (.error .InvalidProgramCounter, vm)) ∧
     (vm.cmp_flag = 0 → addr < vm.memory.length →
        vm.execute (.Je addr) = some (.ok true, { vm with pc := addr }))) ∧
    ((vm.cmp_flag = 0 → vm.execute (.Jne addr) = some (.ok true, vm)) ∧
     (vm.cmp_flag ≠ 0 → vm.memory.length ≤ addr →
        vm.execute (.Jne addr) = some (.error .InvalidProgramCounter, vm)) ∧
     (vm.cmp_flag ≠ 0 → addr < vm.memory.length →
        vm.execute (.Jne addr) = some (.ok true, { vm with pc := addr }))) ∧
    ((¬ vm.cmp_flag > 0 → vm.execute (.Jg addr) = some (.ok true, vm)) ∧
     (vm.cmp_flag > 0 → vm.memory.length ≤ addr →
        vm.execute (.Jg addr) = some (.error .InvalidProgramCounter, vm)) ∧
     (vm.cmp_flag > 0 → addr < vm.memory.length →
        vm.execute (.Jg addr) = some (.ok true, { vm with pc := addr }))) ∧
    ((¬ vm.cmp_flag < 0 → vm.execute (.Jl addr) = some (.ok true, vm)) ∧
     (vm.cmp_flag < 0 → vm.memory.length ≤ addr →
        vm.execute (.Jl addr) = some (.error .InvalidProgramCounter, vm)) ∧
     (vm.cmp_flag < 0 → addr < vm.memory.length →
        vm.execute (.Jl addr) = some (.ok true, { vm with pc := addr }))) := by
  refine ⟨⟨?_, ?_, ?_⟩, ⟨?_, ?_, ?_⟩, ⟨?_, ?_, ?_⟩, ⟨?_, ?_, ?_⟩⟩ <;>
    intro h
  · simp [RegisterVM.execute, h]
  · intro h2
    simp [RegisterVM.execute, h, h2]
  · intro h2
    simp [RegisterVM.execute, h, h2, Nat.not_le.mpr h2]
  · simp [RegisterVM.execute, h]
  · intro h2
    simp [RegisterVM.execute, h, h2]
  · intro h2
    simp [RegisterVM.execute, h, h2, Nat.not_le.mpr h2]
  · simp [RegisterVM.execute, h]
  · intro h2
    simp [RegisterVM.execute, h, h2]
  · intro h2
    simp [RegisterVM.execute, h, h2, Nat.not_le.mpr h2]
  · simp [RegisterVM.execute, h]
  · intro h2
    simp [RegisterVM.execute, h, h2]
  · intro h2
    simp [RegisterVM.execute, h, h2, Nat.not_le.mpr h2]

/-- Witness for C4 at a concrete state: a JE with out-of-range target 5 and
nonzero flag succeeds without changing the state. -/
theorem C4_conditional_jumps_witness :
    RegisterVM.execute { RegisterVM.new with memory := [.Halt], cmp_flag := 1 } (.Je 5) =
      some (.ok true, { RegisterVM.new with memory := [.Halt], cmp_flag := 1 }) :=
  (C4_conditional_jumps { RegisterVM.new with memory := [.Halt], cmp_flag := 1 } 5).1.1
    (by decide)

/-- C10, confirmed: whenever `execute` returns an error, the VM state it
returns is exactly the state it was given — no register, flag, or PC write
happens on any failing path, so the only state change of the failed
fetch-execute step is the PC increment already done by `fetch`. -/
theorem C10_error_preserves_state (vm vm2 : RegisterVM) (instruction : Instruction)
    (e : VMError) (h : vm.execute instruction = some (.error e, vm2)) :
    vm2 = vm := by
  cases instruction <;>
    simp only [RegisterVM.execute] at h <;>
    (repeat' split at h) <;>
    simp_all

/-- Witness for C10: MOV to the out-of-range register 10 on a fresh VM
fails and leaves the state as it was. -/
theorem C10_error_preserves_state_witness : RegisterVM.new = RegisterVM.new :=
  C10_error_preserves_state RegisterVM.new RegisterVM.new (.Mov 10 (.Immediate 0))
    .InvalidRegister rfl

/-- Any successful `execute` keeps the PC within the bound `pc ≤ |memory|`
provided it held on entry: non-jump handlers do not touch the PC, and jump
handlers only assign a target they have range-checked. -/
lemma execute_ok_pc_le (w w2 : RegisterVM) (i : Instruction) (c : Bool)
    (h : w.execute i = some (.ok c, w2)) (hw : w.pc ≤ w.memory.length) :
    w2.pc ≤ w2.memory.length := by
  cases i <;>
    simp only [RegisterVM.execute] at h <;>
    (repeat' split at h) <;>
    (try injection h with h3) <;>
    (try injection h3 with h1 h2) <;>
    (try subst h2) <;>
    simp_all <;>
    omega

/-- C5, confirmed: after any fetch-execute step that succeeds (fetch found
an instruction and execute returned `Ok`), the program counter satisfies
0 ≤ PC ≤ |instruction store|. -/
theorem C5_pc_bounded_after_step (vm vm1 vm2 : RegisterVM) (instruction : Instruction)
    (c : Bool) (hfetch : vm.fetch = some (instruction, vm1))
    (hexec : vm1.execute instruction = some (.ok c, vm2)) :
    vm2.pc ≤ vm2.memory.length := by
  unfold RegisterVM.fetch at hfetch
  rcases hmem : vm.memory[vm.pc]? with _ | instr0 <;> rw [hmem] at hfetch
  · simp at hfetch
  · simp only [Option.some.injEq, Prod.mk.injEq] at hfetch
    obtain ⟨h1, h2⟩ := hfetch
    have hlt : vm.pc < vm.memory.length := by
      have := List.getElem?_eq_some_iff.mp hmem
      exact this.1
    refine execute_ok_pc_le vm1 vm2 instruction c hexec ?_
    rw [← h2]
    simpa using hlt

/-- Witness for C5: stepping a one-instruction HALT program leaves
PC = 1 ≤ 1 = |store|. -/
theorem C5_pc_bounded_after_step_witness :
    ({ RegisterVM.new with memory := [.Halt], pc := 1 } : RegisterVM).pc ≤
      ({ RegisterVM.new with memory := [.Halt], pc := 1 } : RegisterVM).memory.length :=
  C5_pc_bounded_after_step (RegisterVM.load_program RegisterVM.new [.Halt])
    { RegisterVM.new with memory := [.Halt], pc := 1 }
    { RegisterVM.new with memory := [.Halt], pc := 1 }
    .Halt false rfl rfl

/-- C7, confirmed: a fresh VM loaded with the empty program runs to a
successful stop returning 0; a fresh VM loaded with only HALT likewise
returns 0; and whenever `run` stops successfully it returns exactly the
current value of register 0 of the final state. -/
theorem C7_run_returns_register0 :
    (∃ vmf, RegisterVM.run 1 (RegisterVM.load_program RegisterVM.new []) =
      some (.ok 0, vmf)) ∧
    (∃ vmf, RegisterVM.run 1 (RegisterVM.load_program RegisterVM.new [.Halt]) =
      some (.ok 0, vmf)) ∧
    (∀ (fuel : Nat) (vm vmf : RegisterVM) (v : Int),
      RegisterVM.run fuel vm = some (.ok v, vmf) → v = vmf.registers.getD 0 0) := by
  refine ⟨⟨_, rfl⟩, ⟨_, rfl⟩, ?_⟩
  intro fuel
  induction fuel with
  | zero =>
      intro vm vmf v h
      simp [RegisterVM.run] at h
  | succ n ih =>
      intro vm vmf v h
      rw [RegisterVM.run] at h
      split at h
      · split at h
        · simp at h
        · exact ih _ _ _ h
        · simp only [Option.some.injEq, Prod.mk.injEq, Except.ok.injEq] at h
          obtain ⟨h1, h2⟩ := h
          subst h2
          exact h1.symm
        · simp at h
      · simp only [Option.some.injEq, Prod.mk.injEq, Except.ok.injEq] at h
        obtain ⟨h1, h2⟩ := h
        subst h2
        exact h1.symm

/-- Witness for C7: applying the general clause to the concrete empty-program
run shows the returned 0 is register 0 of the final state. -/
theorem C7_run_returns_register0_witness :
    (0 : Int) = (RegisterVM.load_program RegisterVM.new []).registers.getD 0 0 :=
  C7_run_returns_register0.2.2 1 (RegisterVM.load_program RegisterVM.new [])
    (RegisterVM.load_program RegisterVM.new []) 0 rfl

/-- Counterexample to C8 as stated: with registers[0] = i64::MIN and the
operand resolving to −1 ≠ 0, DIV does not write the truncating signed
quotient (which would be 2^63, unrepresentable) — the Rust division panics
in every build profile, modelled by `execute` returning `none`. -/
theorem C8_min_div_counterexample :
    RegisterVM.execute c8State (.Div 0 (.Immediate (-1))) = none ∧
    (-1 : Int) ≠ 0 ∧
    c8State.registers.getD 0 0 = -2 ^ 63 :=
  ⟨rfl, by decide, by decide⟩

/-- C8 as amended: DIV on an in-range destination fails with DivisionByZero
exactly when the resolved operand is 0; for a nonzero operand it writes the
truncating signed quotient unless the division is the overflowing
i64::MIN / −1, which panics (the process aborts) instead of writing; the
sample division-by-zero program fails with DivisionByZero leaving R0 = 10,
R1 = 0 and PC = 3. -/
theorem C8_div_semantics (vm : RegisterVM) (dest : Nat) (src : Operand) (d : Int)
    (hdest : dest < vm.registers.length)
    (hsrc : vm.get_operand_value src = .ok d) :
    (d = 0 → vm.execute (.Div dest src) = some (.error .DivisionByZero, vm)) ∧
    (d ≠ 0 → ¬ (vm.registers.getD dest 0 = -2 ^ 63 ∧ d = -1) →
      vm.execute (.Div dest src) =
        some (.ok true, { vm with registers := vm.registers.set dest (Int.tdiv (vm.registers.getD dest 0) d) })) ∧
    (vm.registers.getD dest 0 = -2 ^ 63 → d = -1 →
      vm.execute (.Div dest src) = none) ∧
    RegisterVM.run 4 (RegisterVM.load_program RegisterVM.new
        [.Mov 0 (.Immediate 10), .Mov 1 (.Immediate 0), .Div 0 (.Register 1)]) =
      some (.error .DivisionByZero, divFailState) ∧
    divFailState.registers.getD 0 0 = 10 ∧
    divFailState.registers.getD 1 0 = 0 ∧
    divFailState.pc = 3 := by
  refine ⟨?_, ?_, ?_, rfl, rfl, rfl, rfl⟩
  · intro h0
    simp [RegisterVM.execute, Nat.not_le.mpr hdest, hsrc, h0]
  · intro h0 h1
    simp [RegisterVM.execute, Nat.not_le.mpr hdest, hsrc, h0]
    intro hmin hd
    exact h1 ⟨by simpa using hmin, hd⟩
  · intro h0 h1
    simp [RegisterVM.execute, Nat.not_le.mpr hdest, hsrc, h1]
    simpa using h0

/-- Witness for C8: DIV by immediate 0 on a fresh VM fails with
DivisionByZero and leaves the state unchanged. -/
theorem C8_div_semantics_witness :
    RegisterVM.execute RegisterVM.new (.Div 0 (.Immediate 0)) =
      some (.error .DivisionByZero, RegisterVM.new) :=
  (C8_div_semantics RegisterVM.new 0 (.Immediate 0) 0 (by decide) rfl).1 rfl

/-- C9, confirmed: ADD, SUB and MUL on an in-range destination with a
resolvable operand always succeed, writing the two's-complement wrap of the
exact result; `wrap64` is congruent to the exact result modulo 2^64 and
lands in the signed 64-bit range, so overflow wraps and is never an error. -/
theorem C9_arith_wraparound (vm : RegisterVM) (dest : Nat) (src : Operand) (v : Int)
    (hdest : dest < vm.registers.length)
    (hsrc : vm.get_operand_value src = .ok v) :
    vm.execute (.Add dest src) =
      some (.ok true, { vm with registers := vm.registers.set dest (wrap64 (vm.registers.getD dest 0 + v)) }) ∧
    vm.execute (.Sub dest src) =
      some (.ok true, { vm with registers := vm.registers.set dest (wrap64 (vm.registers.getD dest 0 - v)) }) ∧
    vm.execute (.Mul dest src) =
      some (.ok true, { vm with registers := vm.registers.set dest (wrap64 (vm.registers.getD dest 0 * v)) }) ∧
    (∀ x : Int, wrap64 x % 2 ^ 64 = x % 2 ^ 64 ∧ -2 ^ 63 ≤ wrap64 x ∧ wrap64 x < 2 ^ 63) := by
  refine ⟨?_, ?_, ?_, ?_⟩
  · simp [RegisterVM.execute, Nat.not_le.mpr hdest, hsrc]
  · simp [RegisterVM.execute, Nat.not_le.mpr hdest, hsrc]
  · simp [RegisterVM.execute, Nat.not_le.mpr hdest, hsrc]
  · intro x
    have h64 : (2 : Int) ^ 64 = 18446744073709551616 := by norm_num
    have h63 : (2 : Int) ^ 63 = 9223372036854775808 := by norm_num
    simp only [wrap64, h64, h63]
    omega

/-- Witness for C9: ADD of immediate 1 into register 0 of a fresh VM writes
the wrapped sum 0 + 1. -/
theorem C9_arith_wraparound_witness :
    RegisterVM.execute RegisterVM.new (.Add 0 (.Immediate 1)) =
      some (.ok true, { RegisterVM.new with registers := RegisterVM.new.registers.set 0 (wrap64 (RegisterVM.new.registers.getD 0 0 + 1)) }) :=
  (C9_arith_wraparound RegisterVM.new 0 (.Immediate 1) 1 (by decide) rfl).1
